/-
Verification model of the FaceReg core (backend/app/services):
liveness.py (multi-layer anti-spoofing), depth_check.py (monocular depth
anti-spoof signal) and face_recognition.py (embedding comparison and
adaptive update), with thresholds from core/config.py.

Floating-point arithmetic of the source is idealised: the liveness
pipeline is modelled over ℚ (all of its own arithmetic is +, -, *, /,
abs, max, min and comparisons), the identity matcher over ℝ (it needs a
square root for the L2 norm).  External capability providers consumed by
the core (OpenCV decoding, colour conversion, Laplacian variance, Haar
detection, the LBP / FFT / chrominance kernels that wrap cv2.resize and
np.fft, the MiDaS depth model, the floating-point square root used by
np.std, and Python float formatting) are modelled as the fields of an
explicit provider record, as in the specification, section 6.
-/
import Mathlib

/-- Raw frame bytes, as handed to the entry points; opaque to the core. -/
abbrev Bytes := List ℕ

/-- Grayscale pixel buffer: a rectangular matrix of intensities. -/
structure GMat where
  rows : ℕ
  cols : ℕ
  pix : ℕ → ℕ → ℚ

instance : Inhabited GMat := ⟨⟨0, 0, fun _ _ => 0⟩⟩

/-- Colour (BGR) pixel buffer. -/
structure CMat where
  rows : ℕ
  cols : ℕ
  pix : ℕ → ℕ → ℚ × ℚ × ℚ

instance : Inhabited CMat := ⟨⟨0, 0, fun _ _ => (0, 0, 0)⟩⟩

/-- Axis-aligned face rectangle (x, y, w, h), as produced by detection. -/
structure Rect where
  x : ℕ
  y : ℕ
  w : ℕ
  h : ℕ
deriving DecidableEq

instance : Inhabited Rect := ⟨⟨0, 0, 0, 0⟩⟩

/-- Relative depth map returned by MiDaS; the model always emits a
256 by 256 surface, read here as a pixel function. -/
abbrev DMap := ℕ → ℕ → ℚ

/-- One anti-spoof signal reading: (name, failed, diagnostic value),
mirroring the (name, failed, value) tuples of liveness._antispoof. -/
structure Signal where
  name : String
  failed : Bool
  diag : String
deriving DecidableEq

/-- Mirror of liveness.LivenessResult. -/
structure LivenessResult where
  passed : Bool
  reason : String
  blur_score : ℚ
  motion_score : ℚ
deriving DecidableEq

/-- External capability providers (spec section 6): each field wraps an
OpenCV / numpy / ONNX primitive that the repository code calls but does
not implement.  decode models liveness._decode (cv2.imdecode), to_gray
models cv2.cvtColor(BGR2GRAY), lap_var models liveness._blur, detect_rects
models cascade.detectMultiScale inside liveness._find_face, lbp_entropy
and moire_energy model liveness._lbp_entropy and liveness._moire_ratio
(both dominated by cv2.resize / np.fft kernels), cr_var models the
cv2.cvtColor(YCrCb) variance inside liveness._skin_cr_var, estimate_depth
models depth_check.estimate_depth (MiDaS inference, none when the model
file is absent), sqrtq is the floating-point square root used by np.std,
and fmt1/fmt2/fmt3 are Python float formatting to 1/2/3 decimals. -/
structure Env where
  decode : Bytes → Option CMat
  to_gray : CMat → GMat
  lap_var : GMat → ℚ
  detect_rects : GMat → List Rect
  lbp_entropy : GMat → ℚ
  moire_energy : GMat → ℚ
  cr_var : CMat → Rect → ℚ
  estimate_depth : CMat → Option DMap
  sqrtq : ℚ → ℚ
  fmt1 : ℚ → String
  fmt2 : ℚ → String
  fmt3 : ℚ → String

/-- Mean of a list of values (np.mean); empty input is never consumed on
the paths the code reaches. -/
def listMean (l : List ℚ) : ℚ := l.sum / l.length

/-- Maximum of a list of values (np.ndarray.max). -/
def listMax : List ℚ → ℚ
  | [] => 0
  | x :: r => r.foldl max x

/-- Minimum of a list of values (np.ndarray.min). -/
def listMin : List ℚ → ℚ
  | [] => 0
  | x :: r => r.foldl min x

/-- Population variance of a list of values (the square of np.std). -/
def listVar (l : List ℚ) : ℚ := listMean (l.map fun x => (x - listMean l) ^ 2)

/-- Index of the first occurrence of the maximum (np.argmax). -/
def argmaxIdx {α : Type} [LinearOrder α] [Inhabited α] : List α → ℕ
  | [] => 0
  | [_] => 0
  | x :: y :: rest =>
    let j := argmaxIdx (y :: rest)
    if (y :: rest).getD j default ≤ x then 0 else j + 1

-- Thresholds of liveness.py (tuned constants, lines 26-31).

def BLUR_MIN_SINGLE : ℚ := 25
def BLUR_MIN_SEQ : ℚ := 15
def MOTION_AVG_MIN : ℚ := 0.8
def LBP_ENTROPY_MIN : ℚ := 4.5
def MOIRE_RATIO_MAX : ℚ := 0.96
def SKIN_CR_VAR_MIN : ℚ := 8.0

-- Thresholds of depth_check.py (lines 34-35).

def DEPTH_RANGE_MIN : ℚ := 15.0
def DEPTH_STD_MIN : ℚ := 5.0

/-- Mirror of liveness._find_face: largest detected face, or none.  The
detector itself (detectMultiScale with minSize 60 by 60) is the provider;
the repository code picks the rectangle of maximal area, first such index
on ties (np.argmax). -/
def find_face (env : Env) (gray : GMat) : Option Rect :=
  let faces := env.detect_rects gray
  if faces = [] then none
  else some (faces.getD (argmaxIdx (faces.map fun f => f.w * f.h)) default)

/-- Python slice g[y:y+h, x:x+w] of a grayscale buffer: row and column
counts are clipped to the buffer bounds (slice coordinates here are
natural numbers, as detection rectangles are non-negative). -/
def cropG (g : GMat) (r : Rect) : GMat :=
  ⟨min (r.y + r.h) g.rows - min r.y g.rows,
   min (r.x + r.w) g.cols - min r.x g.cols,
   fun i j => g.pix (r.y + i) (r.x + j)⟩

/-- Mirror of liveness._skin_cr_var: an empty face ROI yields the benign
value 100.0; otherwise the Cr-channel variance of the ROI, computed by
the cv2 colour-space provider. -/
def skin_cr_var (env : Env) (img : CMat) (rect : Rect) : ℚ :=
  let rows := min (rect.y + rect.h) img.rows - min rect.y img.rows
  let cols := min (rect.x + rect.w) img.cols - min rect.x img.cols
  if rows * cols = 0 then 100 else env.cr_var img rect

/-- Mirror of liveness._antispoof: all pixel-based anti-spoof signals on
one frame.  A face crop with either dimension below 30 yields no signals
at all; otherwise the texture, screen_pattern and flat_colour readings
with their thresholds and diagnostic strings. -/
def antispoof (env : Env) (img : CMat) (gray : GMat) (rect : Rect) : List Signal :=
  let gf := cropG gray rect
  if gf.rows < 30 ∨ gf.cols < 30 then []
  else
    let ent := env.lbp_entropy gf
    let moire := env.moire_energy gf
    let crv := skin_cr_var env img rect
    [⟨"texture", decide (ent < LBP_ENTROPY_MIN), "entropy=" ++ env.fmt2 ent⟩,
     ⟨"screen_pattern", decide (MOIRE_RATIO_MAX < moire), "moiré=" ++ env.fmt3 moire⟩,
     ⟨"flat_colour", decide (crv < SKIN_CR_VAR_MIN), "Cr_var=" ++ env.fmt1 crv⟩]

/-- Python slice normalisation a[s:e] on an axis of length n: negative
indices count from the end, both bounds are clamped to [0, n]; returns
the start offset and the length of the slice. -/
def pySlice (n : ℕ) (a b : ℤ) : ℕ × ℕ :=
  let s := if a < 0 then (max ((n : ℤ) + a) 0).toNat else min a.toNat n
  let e := if b < 0 then (max ((n : ℤ) + b) 0).toNat else min b.toNat n
  (s, e - s)

/-- Row-major values of the rn by cn window of a depth map that starts at
row r0, column c0. -/
def sliceVals (d : DMap) (r0 rn c0 cn : ℕ) : List ℚ :=
  (List.range rn).flatMap fun i => (List.range cn).map fun j => d (r0 + i) (c0 + j)

/-- Mirror of depth_check.check_depth.  When the depth provider is
unavailable it returns (true, 0, 0) (non-blocking skip).  Otherwise the
face rectangle is scaled into the 256 by 256 depth map, a too-small ROI
(fewer than 100 cells) also returns (true, 0, 0), and otherwise the
verdict combines the ROI depth standard deviation with the
centre-versus-edge gradient; the returned triple is
(passed, depth range, depth standard deviation). -/
def check_depth (env : Env) (img : CMat) (face_rect : Rect) : Bool × ℚ × ℚ :=
  match env.estimate_depth img with
  | none => (true, 0, 0)
  | some depth =>
    let dx := face_rect.x * 256 / img.cols
    let dy := face_rect.y * 256 / img.rows
    let dw := max (face_rect.w * 256 / img.cols) 1
    let dh := max (face_rect.h * 256 / img.rows) 1
    let rh := min (dy + dh) 256 - min dy 256
    let rw := min (dx + dw) 256 - min dx 256
    if rh * rw < 100 then (true, 0, 0)
    else
      let roi := sliceVals depth dy rh dx rw
      let d_range := listMax roi - listMin roi
      let d_std := env.sqrtq (listVar roi)
      let cy := rh / 2
      let cx := rw / 2
      let my := max (rh / 6) 2
      let mx := max (rw / 6) 2
      let crow := pySlice rh ((cy : ℤ) - my) ((cy : ℤ) + my)
      let ccol := pySlice rw ((cx : ℤ) - mx) ((cx : ℤ) + mx)
      let center_mean := listMean (sliceVals depth (dy + crow.1) crow.2 (dx + ccol.1) ccol.2)
      let etop := pySlice rh 0 my
      let ebot := pySlice rh (-(my : ℤ)) rh
      let eleft := pySlice rw 0 mx
      let eright := pySlice rw (-(mx : ℤ)) rw
      let edge_mean := (listMean (sliceVals depth (dy + etop.1) etop.2 dx rw)
        + listMean (sliceVals depth (dy + ebot.1) ebot.2 dx rw)
        + listMean (sliceVals depth dy rh (dx + eleft.1) eleft.2)
        + listMean (sliceVals depth dy rh (dx + eright.1) eright.2)) / 4
      let gradient := |center_mean - edge_mean|
      (decide (DEPTH_STD_MIN ≤ d_std) || decide (DEPTH_RANGE_MIN ≤ gradient),
       d_range, d_std)

/-- Mean absolute pixel difference of two frames
(cv2.absdiff(a, b).mean()); the frames of one sequence share dimensions. -/
def absdiffMean (a b : GMat) : ℚ :=
  listMean ((List.range a.rows).flatMap fun i =>
    (List.range a.cols).map fun j => |a.pix i j - b.pix i j|)

/-- Inter-frame differences of consecutive surviving frames
(liveness.py lines 229-232). -/
def pairMotions : List GMat → List ℚ
  | g1 :: g2 :: rest => absdiffMean g1 g2 :: pairMotions (g2 :: rest)
  | _ => []

/-- Outcome of the per-frame triage loop of check_liveness_sequence:
the four parallel lists grays / imgs / blurs / face_rects. -/
structure TriageOut where
  grays : List GMat
  imgs : List CMat
  blurs : List ℚ
  rects : List (Option Rect)
deriving Inhabited

/-- Per-frame triage loop of check_liveness_sequence (lines 186-197):
frames that fail to decode or score below the sequence blur floor are
dropped; every surviving frame contributes its gray buffer, colour
buffer, blur score and (optional) detected face rectangle, in order. -/
def triage (env : Env) : List Bytes → TriageOut
  | [] => ⟨[], [], [], []⟩
  | fb :: rest =>
    let t := triage env rest
    match env.decode fb with
    | none => t
    | some img =>
      let gray := env.to_gray img
      let b := env.lap_var gray
      if b < BLUR_MIN_SEQ then t
      else ⟨gray :: t.grays, img :: t.imgs, b :: t.blurs, find_face env gray :: t.rects⟩

/-- Index of the sharpest surviving frame (np.argmax(blurs)). -/
def bestOf (t : TriageOut) : ℕ := argmaxIdx t.blurs

/-- Colour buffer of the sharpest surviving frame. -/
def bestImg (t : TriageOut) : CMat := t.imgs.getD (bestOf t) default

/-- Gray buffer of the sharpest surviving frame. -/
def bestGray (t : TriageOut) : GMat := t.grays.getD (bestOf t) default

/-- Face rectangle used for the spatial signals (line 208): the rectangle
of the sharpest frame when it has one, otherwise the first detected
rectangle of the sequence (valid_faces[0]). -/
def rectOf (t : TriageOut) : Rect :=
  match t.rects.getD (bestOf t) none with
  | some r => r
  | none => (t.rects.filterMap id).headD default

/-- Depth signal appended by check_liveness_sequence lines 214-216: the
flat_depth reading is present exactly when check_depth reported a
positive depth range (the proxy the code uses for model availability). -/
def depthSignals (env : Env) (img : CMat) (rect : Rect) : List Signal :=
  let r := check_depth env img rect
  if 0 < r.2.1 then
    [⟨"flat_depth", !r.1, "range=" ++ env.fmt1 r.2.1 ++ " std=" ++ env.fmt1 r.2.2⟩]
  else []

/-- Full spatial signal list of the sequence policy: the pixel-based
signals of the sharpest frame followed by the optional depth signal. -/
def signalsOf (env : Env) (t : TriageOut) : List Signal :=
  antispoof env (bestImg t) (bestGray t) (rectOf t)
    ++ depthSignals env (bestImg t) (rectOf t)

/-- Number of failing signals (line 218). -/
def failCount (S : List Signal) : ℕ := (S.filter fun sg => sg.failed).length

/-- Formatted entries of the failing signals (line 219). -/
def failStrings (S : List Signal) : List String :=
  (S.filter fun sg => sg.failed).map fun sg => sg.name ++ "(" ++ sg.diag ++ ")"

/-- Reason string of a spatial anti-spoof rejection (lines 222-226). -/
def antiSpoofReason (S : List Signal) : String :=
  "Anti-spoof failed: " ++ String.intercalate ", " (failStrings S)

/-- Motion stage of the sequence policy (lines 228-248): average
inter-frame difference below the floor rejects as possible photo replay,
otherwise the sequence passes. -/
def motionStage (env : Env) (t : TriageOut) : LivenessResult :=
  let avg := listMean (pairMotions t.grays)
  if avg < MOTION_AVG_MIN then
    ⟨false, "Insufficient motion (" ++ env.fmt3 avg ++ ") — possible photo replay",
     listMean t.blurs, avg⟩
  else ⟨true, "OK", listMean t.blurs, avg⟩

/-- Spatial fusion stage (lines 210-226): two or more failing signals
reject with the enumerated reasons, otherwise the motion stage runs. -/
def decideSignals (env : Env) (t : TriageOut) : LivenessResult :=
  if 2 ≤ failCount (signalsOf env t) then
    ⟨false, antiSpoofReason (signalsOf env t), listMean t.blurs, 0⟩
  else motionStage env t

/-- Stages of check_liveness_sequence after the triage loop
(lines 199-248). -/
def afterTriage (env : Env) (t : TriageOut) : LivenessResult :=
  if t.grays.length < 2 then ⟨false, "Not enough usable frames", 0, 0⟩
  else if t.rects.filterMap id = [] then ⟨false, "No face detected in frames", 0, 0⟩
  else decideSignals env t

/-- Mirror of liveness.check_liveness_sequence. -/
def check_liveness_sequence (env : Env) (frames_bytes : List Bytes) : LivenessResult :=
  if frames_bytes.length < 2 then ⟨false, "Not enough frames", 0, 0⟩
  else afterTriage env (triage env frames_bytes)

/-- Mirror of liveness.check_liveness_single: quality and face presence
only, no anti-spoof signals. -/
def check_liveness_single (env : Env) (image_bytes : Bytes) : LivenessResult :=
  match env.decode image_bytes with
  | none => ⟨false, "Could not decode image", 0, 0⟩
  | some img =>
    let gray := env.to_gray img
    let b := env.lap_var gray
    if b < BLUR_MIN_SINGLE then
      ⟨false, "Image too blurry (score=" ++ env.fmt1 b ++ ")", b, 0⟩
    else
      match find_face env gray with
      | none => ⟨false, "No face detected", b, 0⟩
      | some _ => ⟨true, "OK", b, 0⟩

-- ── Identity matcher (face_recognition.py), over ℝ ─────────────────────

/-- A 128-dimension embedding vector. -/
abbrev Emb := Fin 128 → ℝ

/-- Dot product of two embeddings (np.dot). -/
def np_dot (a b : Emb) : ℝ := ∑ i, a i * b i

/-- Euclidean norm of an embedding (np.linalg.norm). -/
noncomputable def l2norm (v : Emb) : ℝ := Real.sqrt (∑ i, v i ^ 2)

/-- Matching configuration of core/config.py with its defaults. -/
structure Settings where
  SIMILARITY_THRESHOLD : ℝ := 0.593
  ADAPTIVE_ALPHA : ℝ := 0.05

/-- The process-wide settings object (config.settings). -/
def settings : Settings := {}

/-- Mirror of face_recognition.verify_face: (is_match, cosine similarity),
with is_match true exactly when the similarity reaches the threshold. -/
noncomputable def verify_face (new_embedding stored_embedding : Emb) : Bool × ℝ :=
  let sim := np_dot new_embedding stored_embedding
  (if settings.SIMILARITY_THRESHOLD ≤ sim then true else false, sim)

/-- Mirror of face_recognition.adaptive_update: blend the new embedding
into the stored one with weight alpha (settings default when absent) and
divide by the Euclidean norm of the blend. -/
noncomputable def adaptive_update (stored_embedding new_embedding : Emb)
    (alpha : Option ℝ) : Emb :=
  let a := alpha.getD settings.ADAPTIVE_ALPHA
  let updated := fun i => (1 - a) * stored_embedding i + a * new_embedding i
  fun i => updated i / l2norm updated

-- ── General lemmas about the embedding ─────────────────────────────────

lemma str_data_append (a b : String) : (a ++ b).data = a.data ++ b.data := rfl

lemma head_of_append (a s : String) (c : Char) (h : a.data.head? = some c) :
    (a ++ s).data.head? = some c := by
  rw [str_data_append]
  cases hd : a.data with
  | nil => rw [hd] at h; cases h
  | cons x t =>
    rw [hd] at h
    rw [List.cons_append, List.head?_cons]
    exact h

lemma str_heads_ne (a b : String) (c d : Char) (ha : a.data.head? = some c)
    (hb : b.data.head? = some d) (hcd : c ≠ d) : a ≠ b := by
  intro e
  rw [e, hb] at ha
  exact hcd (Option.some.inj ha).symm

lemma triage_length_le (env : Env) : ∀ l : List Bytes,
    (triage env l).grays.length ≤ l.length := by
  intro l
  induction l with
  | nil => simp [triage]
  | cons fb rest ih =>
    simp only [triage, List.length_cons]
    cases env.decode fb with
    | none => exact Nat.le_succ_of_le ih
    | some img =>
      simp only
      split
      · exact Nat.le_succ_of_le ih
      · simpa using ih

lemma triage_all_none (env : Env) : ∀ l : List Bytes,
    (∀ b ∈ l, env.decode b = none) → triage env l = ⟨[], [], [], []⟩ := by
  intro l
  induction l with
  | nil => intro _; rfl
  | cons fb rest ih =>
    intro h
    simp only [triage]
    rw [h fb (by simp)]
    exact ih fun b hb => h b (by simp [hb])

lemma triage_const (env : Env) (img : CMat)
    (hd : ∀ b, env.decode b = some img)
    (hb : ¬ env.lap_var (env.to_gray img) < BLUR_MIN_SEQ) :
    ∀ l : List Bytes, triage env l =
      ⟨List.replicate l.length (env.to_gray img),
       List.replicate l.length img,
       List.replicate l.length (env.lap_var (env.to_gray img)),
       List.replicate l.length (find_face env (env.to_gray img))⟩ := by
  intro l
  induction l with
  | nil => rfl
  | cons fb rest ih =>
    simp only [triage, hd fb, ih, if_neg hb, List.length_cons, List.replicate_succ]

lemma triage_replicate (env : Env) (fb : Bytes) (img : CMat)
    (hd : env.decode fb = some img)
    (hb : ¬ env.lap_var (env.to_gray img) < BLUR_MIN_SEQ) :
    ∀ n, triage env (List.replicate n fb) =
      ⟨List.replicate n (env.to_gray img),
       List.replicate n img,
       List.replicate n (env.lap_var (env.to_gray img)),
       List.replicate n (find_face env (env.to_gray img))⟩ := by
  intro n
  induction n with
  | zero => rfl
  | succ m ih =>
    simp only [List.replicate_succ, triage, hd, ih, if_neg hb]

lemma argmaxIdx_replicate {α : Type} [LinearOrder α] [Inhabited α] (x : α) :
    ∀ n, argmaxIdx (List.replicate n x) = 0 := by
  intro n
  induction n with
  | zero => rfl
  | succ m ih =>
    cases m with
    | zero => rfl
    | succ k =>
      rw [List.replicate_succ]
      rw [List.replicate_succ]
      simp only [argmaxIdx]
      rw [← List.replicate_succ, ih]
      simp

lemma filterMap_id_replicate_some {α : Type} (r : α) :
    ∀ n, (List.replicate n (some r)).filterMap id = List.replicate n r := by
  intro n
  induction n with
  | zero => rfl
  | succ m ih => simp only [List.replicate_succ, List.filterMap_cons, id, ih]

lemma listMean_replicate (x : ℚ) (n : ℕ) (hn : n ≠ 0) :
    listMean (List.replicate n x) = x := by
  simp only [listMean, List.sum_replicate, List.length_replicate, nsmul_eq_mul]
  rw [mul_comm]
  exact mul_div_cancel_right₀ x (Nat.cast_ne_zero.mpr hn)

lemma listMean_replicate_zero (n : ℕ) :
    listMean (List.replicate n (0 : ℚ)) = 0 := by
  simp [listMean, List.sum_replicate]

lemma absdiffMean_self (g : GMat) : absdiffMean g g = 0 := by
  unfold absdiffMean listMean
  rw [List.sum_eq_zero]
  · simp
  · intro x hx
    simp only [List.mem_flatMap, List.mem_map, List.mem_range] at hx
    obtain ⟨i, _, j, _, hj⟩ := hx
    simp [← hj]

lemma pairMotions_replicate (g : GMat) :
    ∀ n, pairMotions (List.replicate (n + 1) g) = List.replicate n (absdiffMean g g) := by
  intro n
  induction n with
  | zero => rfl
  | succ m ih =>
    have h2 : List.replicate (m + 1 + 1) g = g :: (g :: List.replicate m g) := by
      simp [List.replicate_succ]
    rw [h2]
    simp only [pairMotions]
    rw [← List.replicate_succ, ih, List.replicate_succ]

lemma filterMap_first {α : Type} [Inhabited α] : ∀ l : List (Option α),
    l.filterMap id ≠ [] →
    ∃ j, j < l.length ∧ l.getD j none = some ((l.filterMap id).headD default) ∧
      ∀ k, k < j → l.getD k none = none := by
  intro l
  induction l with
  | nil => intro h; simp at h
  | cons o tail ih =>
    intro h
    cases o with
    | some r =>
      refine ⟨0, by simp, ?_, by omega⟩
      simp [List.filterMap_cons]
    | none =>
      have h' : tail.filterMap id ≠ [] := by
        simpa [List.filterMap_cons] using h
      obtain ⟨j, hjl, hj, hfirst⟩ := ih h'
      refine ⟨j + 1, by simpa using hjl, ?_, ?_⟩
      · simpa [List.filterMap_cons] using hj
      · intro k hk
        cases k with
        | zero => rfl
        | succ m => exact hfirst m (by omega)

-- ── Identity matcher lemmas and claims ─────────────────────────────────

/-- Unit vector along the first coordinate, a concrete unit-normalised
embedding. -/
noncomputable def e0 : Emb := fun i => if i = 0 then 1 else 0

/-- The opposite unit vector. -/
noncomputable def e0neg : Emb := fun i => if i = 0 then -1 else 0

/-- A concrete embedding whose dot product with e0 is exactly the default
similarity threshold. -/
noncomputable def b593 : Emb := fun i => if i = 0 then 0.593 else 0

lemma sum_sq_e0 : (∑ i, e0 i ^ 2) = 1 := by
  simp [e0, apply_ite (fun x : ℝ => x ^ 2)]

lemma sum_sq_e0neg : (∑ i, e0neg i ^ 2) = 1 := by
  simp [e0neg, apply_ite (fun x : ℝ => x ^ 2)]

lemma l2norm_e0 : l2norm e0 = 1 := by
  rw [l2norm, sum_sq_e0, Real.sqrt_one]

lemma l2norm_e0neg : l2norm e0neg = 1 := by
  rw [l2norm, sum_sq_e0neg, Real.sqrt_one]

lemma l2norm_zero_fun : l2norm (fun _ => (0 : ℝ)) = 0 := by
  rw [l2norm]
  simp

/-- Normalising a vector of positive squared mass yields a unit vector. -/
lemma l2norm_normalize (v : Emb) (hv : 0 < ∑ i, v i ^ 2) :
    l2norm (fun i => v i / l2norm v) = 1 := by
  unfold l2norm
  have hs : 0 < Real.sqrt (∑ i, v i ^ 2) := Real.sqrt_pos.mpr hv
  have hstep : (∑ i, (v i / Real.sqrt (∑ j, v j ^ 2)) ^ 2)
      = (∑ i, v i ^ 2) / Real.sqrt (∑ j, v j ^ 2) ^ 2 := by
    simp only [div_pow]
    rw [← Finset.sum_div]
  rw [hstep, Real.sq_sqrt hv.le, div_self hv.ne']
  exact Real.sqrt_one

/-- Claim C1 (amended): for unit-normalised 128-dimension embeddings e and
e2 and alpha in (0,1], provided the blend (1-alpha)e + alpha e2 is not the
zero vector, adaptive_update returns a vector of Euclidean norm exactly 1;
the blend degenerates to zero only for e2 = -e at alpha = 1/2. -/
theorem adaptive_update_unit_norm (e e2 : Emb) (alpha : ℝ)
    (he : l2norm e = 1) (he2 : l2norm e2 = 1) (h0 : 0 < alpha) (h1 : alpha ≤ 1)
    (hnz : ∃ i, (1 - alpha) * e i + alpha * e2 i ≠ 0) :
    l2norm (adaptive_update e e2 (some alpha)) = 1 := by
  obtain ⟨i0, hi0⟩ := hnz
  have hS : 0 < ∑ i, ((1 - alpha) * e i + alpha * e2 i) ^ 2 := by
    apply Finset.sum_pos'
    · intro i _
      exact sq_nonneg _
    · exact ⟨i0, Finset.mem_univ i0, pow_two_pos_of_ne_zero hi0⟩
  exact l2norm_normalize (fun i => (1 - alpha) * e i + alpha * e2 i) hS

/-- Claim C1, counterexample: e unit, e2 = -e unit, alpha = 1/2 in (0,1],
yet the update (a division by the zero norm of the zero blend) does not
have norm 1 — the claim fails without a non-degeneracy hypothesis. -/
theorem adaptive_update_degenerate_cx :
    l2norm e0 = 1 ∧ l2norm e0neg = 1 ∧ (0 : ℝ) < 1 / 2 ∧ (1 / 2 : ℝ) ≤ 1 ∧
    l2norm (adaptive_update e0 e0neg (some (1 / 2))) ≠ 1 := by
  have hb : (fun i => (1 - (1 / 2 : ℝ)) * e0 i + (1 / 2) * e0neg i)
      = fun _ => (0 : ℝ) := by
    funext i
    by_cases h : i = 0
    · norm_num [e0, e0neg, h]
    · norm_num [e0, e0neg, h]
  have hX : adaptive_update e0 e0neg (some (1 / 2)) = fun _ => (0 : ℝ) := by
    unfold adaptive_update
    simp only [Option.getD_some]
    rw [hb, l2norm_zero_fun]
    funext i
    simp
  refine ⟨l2norm_e0, l2norm_e0neg, by norm_num, by norm_num, ?_⟩
  rw [hX, l2norm_zero_fun]
  norm_num

/-- Witness for the amended claim C1 at e = e2 = e0, alpha = 1/2. -/
theorem adaptive_update_unit_norm_witness :
    l2norm e0 = 1 ∧ (0 : ℝ) < 1 / 2 ∧ (1 / 2 : ℝ) ≤ 1 ∧
    (∃ i : Fin 128, (1 - (1 / 2 : ℝ)) * e0 i + (1 / 2) * e0 i ≠ 0) ∧
    l2norm (adaptive_update e0 e0 (some (1 / 2))) = 1 :=
  ⟨l2norm_e0, by norm_num, by norm_num,
   ⟨0, by simp [e0]⟩,
   adaptive_update_unit_norm e0 e0 (1 / 2) l2norm_e0 l2norm_e0
     (by norm_num) (by norm_num) ⟨0, by simp [e0]⟩⟩

/-- Claim C6: when the dot-product similarity equals the similarity
threshold exactly (default 0.593), verify_face reports a match — the
boundary is inclusive. -/
theorem verify_face_boundary_inclusive (a b : Emb)
    (h : np_dot a b = settings.SIMILARITY_THRESHOLD) :
    (verify_face a b).1 = true := by
  simp [verify_face, h]

lemma np_dot_e0_b593 : np_dot e0 b593 = 0.593 := by
  unfold np_dot
  simp [e0, b593, ite_mul, mul_ite]

/-- Witness for claim C6 at a concrete pair with similarity exactly
0.593. -/
theorem verify_face_boundary_inclusive_witness : (verify_face e0 b593).1 = true :=
  verify_face_boundary_inclusive e0 b593 (by rw [np_dot_e0_b593]; rfl)

/-- Claim C8: comparing a unit-normalised embedding with itself yields
similarity exactly 1 and a match. -/
theorem verify_face_self (a : Emb) (h : l2norm a = 1) :
    (verify_face a a).2 = 1 ∧ (verify_face a a).1 = true := by
  have h0 : (0 : ℝ) ≤ ∑ i, a i ^ 2 := Finset.sum_nonneg fun i _ => sq_nonneg _
  have hsum : (∑ i, a i ^ 2) = 1 := by
    have hq := Real.sq_sqrt h0
    rw [show Real.sqrt (∑ i, a i ^ 2) = l2norm a from rfl, h] at hq
    simpa using hq.symm
  have hdot : np_dot a a = 1 := by
    unfold np_dot
    rw [← hsum]
    exact Finset.sum_congr rfl fun i _ => (pow_two (a i)).symm
  have hth : settings.SIMILARITY_THRESHOLD = 0.593 := rfl
  constructor
  · simp [verify_face, hdot]
  · rw [show (verify_face a a).1
        = (if settings.SIMILARITY_THRESHOLD ≤ np_dot a a then true else false) from rfl]
    rw [hdot, hth, if_pos (by norm_num)]

/-- Witness for claim C8 at the concrete unit embedding e0. -/
theorem verify_face_self_witness :
    (verify_face e0 e0).2 = 1 ∧ (verify_face e0 e0).1 = true :=
  verify_face_self e0 l2norm_e0

-- ── Concrete environments and inputs for witnesses and counterexamples ──

lemma not_blur_lt (x : ℚ) (h : BLUR_MIN_SEQ ≤ x) : ¬ x < BLUR_MIN_SEQ :=
  not_lt.mpr h

/-- A 1 by 1 colour frame. -/
def img1 : CMat := ⟨1, 1, fun _ _ => (0, 0, 0)⟩

/-- Its grayscale counterpart. -/
def gray1 : GMat := ⟨1, 1, fun _ _ => 0⟩

/-- A 1 by 1 face rectangle. -/
def rect1 : Rect := ⟨0, 0, 1, 1⟩

/-- Provider environment: every frame decodes to the 1 by 1 image, sharp,
with a tiny detected face, no depth model, in-bounds signal values. -/
def envA : Env where
  decode := fun _ => some img1
  to_gray := fun _ => gray1
  lap_var := fun _ => 100
  detect_rects := fun _ => [rect1]
  lbp_entropy := fun _ => 5
  moire_energy := fun _ => 1 / 2
  cr_var := fun _ _ => 20
  estimate_depth := fun _ => none
  sqrtq := fun _ => 0
  fmt1 := fun _ => "v"
  fmt2 := fun _ => "v"
  fmt3 := fun _ => "m"

/-- Triage of two identical frames under envA. -/
def tA : TriageOut :=
  ⟨List.replicate 2 gray1, List.replicate 2 img1,
   List.replicate 2 100, List.replicate 2 (some rect1)⟩

lemma ht_A : triage envA (List.replicate 2 ([0] : Bytes)) = tA := by
  rw [triage_const envA img1 (fun _ => rfl) (not_blur_lt 100 (by norm_num [BLUR_MIN_SEQ]))]
  rfl

lemma bestOf_tA : bestOf tA = 0 := argmaxIdx_replicate (100 : ℚ) 2

lemma bestImg_tA : bestImg tA = img1 := by
  unfold bestImg
  rw [bestOf_tA]
  rfl

lemma bestGray_tA : bestGray tA = gray1 := by
  unfold bestGray
  rw [bestOf_tA]
  rfl

lemma rectOf_tA : rectOf tA = rect1 := by
  unfold rectOf
  rw [bestOf_tA]
  rfl

lemma antispoof_A : antispoof envA img1 gray1 rect1 = [] := by
  simp only [antispoof]
  rw [if_pos (by decide)]

lemma depthSignals_A : depthSignals envA img1 rect1 = [] := by
  simp only [depthSignals]
  rw [show check_depth envA img1 rect1 = (true, 0, 0) from rfl]
  rw [if_neg (lt_irrefl (0 : ℚ))]

lemma signalsOf_tA : signalsOf envA tA = [] := by
  unfold signalsOf
  rw [bestImg_tA, bestGray_tA, rectOf_tA, antispoof_A, depthSignals_A]
  rfl

/-- A 60 by 60 colour frame. -/
def img60 : CMat := ⟨60, 60, fun _ _ => (0, 0, 0)⟩

/-- Its grayscale counterpart. -/
def gray60 : GMat := ⟨60, 60, fun _ _ => 0⟩

/-- A full-frame 60 by 60 face rectangle. -/
def rect60 : Rect := ⟨0, 0, 60, 60⟩

/-- Provider environment whose texture and chrominance signals both fail
(artificial texture, flat colour), no depth model. -/
def envB : Env where
  decode := fun _ => some img60
  to_gray := fun _ => gray60
  lap_var := fun _ => 100
  detect_rects := fun _ => [rect60]
  lbp_entropy := fun _ => 1
  moire_energy := fun _ => 1 / 2
  cr_var := fun _ _ => 0
  estimate_depth := fun _ => none
  sqrtq := fun _ => 0
  fmt1 := fun _ => "v"
  fmt2 := fun _ => "v"
  fmt3 := fun _ => "m"

/-- Triage of two frames under envB. -/
def tB : TriageOut :=
  ⟨List.replicate 2 gray60, List.replicate 2 img60,
   List.replicate 2 100, List.replicate 2 (some rect60)⟩

lemma ht_B : triage envB [[0], [1]] = tB := by
  rw [triage_const envB img60 (fun _ => rfl) (not_blur_lt 100 (by norm_num [BLUR_MIN_SEQ]))]
  rfl

/-- A 4000 by 4000 colour frame (large enough that a modest face
rectangle maps to a sub-100-cell depth ROI). -/
def imgC : CMat := ⟨4000, 4000, fun _ _ => (0, 0, 0)⟩

/-- Its grayscale counterpart. -/
def grayC : GMat := ⟨4000, 4000, fun _ _ => 0⟩

/-- A 100 by 100 face rectangle. -/
def rectC : Rect := ⟨0, 0, 100, 100⟩

/-- Provider environment with an available depth model (a constant map)
over a large frame: check_depth hits the too-small-ROI path. -/
def envC : Env where
  decode := fun _ => some imgC
  to_gray := fun _ => grayC
  lap_var := fun _ => 100
  detect_rects := fun _ => [rectC]
  lbp_entropy := fun _ => 5
  moire_energy := fun _ => 1 / 2
  cr_var := fun _ _ => 20
  estimate_depth := fun _ => some fun _ _ => 0
  sqrtq := fun _ => 0
  fmt1 := fun _ => "v"
  fmt2 := fun _ => "v"
  fmt3 := fun _ => "m"

/-- Triage of two frames under envC. -/
def tC : TriageOut :=
  ⟨List.replicate 2 grayC, List.replicate 2 imgC,
   List.replicate 2 100, List.replicate 2 (some rectC)⟩

lemma ht_C : triage envC [[0], [1]] = tC := by
  rw [triage_const envC imgC (fun _ => rfl) (not_blur_lt 100 (by norm_num [BLUR_MIN_SEQ]))]
  rfl

lemma bestOf_tC : bestOf tC = 0 := argmaxIdx_replicate (100 : ℚ) 2

lemma bestImg_tC : bestImg tC = imgC := by
  unfold bestImg
  rw [bestOf_tC]
  rfl

lemma bestGray_tC : bestGray tC = grayC := by
  unfold bestGray
  rw [bestOf_tC]
  rfl

lemma rectOf_tC : rectOf tC = rectC := by
  unfold rectOf
  rw [bestOf_tC]
  rfl

lemma check_depth_C : check_depth envC imgC rectC = (true, 0, 0) := rfl

lemma depthSignals_C : depthSignals envC imgC rectC = [] := by
  simp only [depthSignals]
  rw [check_depth_C]
  rw [if_neg (lt_irrefl (0 : ℚ))]

lemma signalsOf_tC : signalsOf envC tC =
    antispoof envC imgC grayC rectC := by
  unfold signalsOf
  rw [bestImg_tC, bestGray_tC, rectOf_tC, depthSignals_C, List.append_nil]

/-- Provider environment in which no bytes decode. -/
def envD : Env where
  decode := fun _ => none
  to_gray := fun _ => gray1
  lap_var := fun _ => 100
  detect_rects := fun _ => [rect1]
  lbp_entropy := fun _ => 5
  moire_energy := fun _ => 1 / 2
  cr_var := fun _ _ => 20
  estimate_depth := fun _ => none
  sqrtq := fun _ => 0
  fmt1 := fun _ => "v"
  fmt2 := fun _ => "v"
  fmt3 := fun _ => "m"

/-- A 2 by 2 colour frame (the sharper, faceless one). -/
def imgA2 : CMat := ⟨2, 2, fun _ _ => (0, 0, 0)⟩

/-- A 3 by 3 colour frame (the blurrier one with a face). -/
def imgB2 : CMat := ⟨3, 3, fun _ _ => (0, 0, 0)⟩

/-- Provider environment whose first frame is sharpest but has no
detected face, while the second frame has one. -/
def envE : Env where
  decode := fun b => if b = [0] then some imgA2 else some imgB2
  to_gray := fun i => ⟨i.rows, i.cols, fun _ _ => 0⟩
  lap_var := fun g => if g.rows = 2 then 50 else 20
  detect_rects := fun g => if g.rows = 2 then [] else [rect1]
  lbp_entropy := fun _ => 5
  moire_energy := fun _ => 1 / 2
  cr_var := fun _ _ => 20
  estimate_depth := fun _ => none
  sqrtq := fun _ => 0
  fmt1 := fun _ => "v"
  fmt2 := fun _ => "v"
  fmt3 := fun _ => "m"

/-- Triage of the two envE frames. -/
def tE : TriageOut :=
  ⟨[⟨2, 2, fun _ _ => 0⟩, ⟨3, 3, fun _ _ => 0⟩], [imgA2, imgB2],
   [50, 20], [none, some rect1]⟩

lemma ht_E : triage envE [[0], [1]] = tE := by
  have hbl0 : ¬ envE.lap_var (envE.to_gray imgA2) < BLUR_MIN_SEQ :=
    not_blur_lt 50 (by norm_num [BLUR_MIN_SEQ])
  have hbl1 : ¬ envE.lap_var (envE.to_gray imgB2) < BLUR_MIN_SEQ :=
    not_blur_lt 20 (by norm_num [BLUR_MIN_SEQ])
  have d0 : envE.decode [0] = some imgA2 := rfl
  have d1 : envE.decode [1] = some imgB2 := rfl
  simp only [triage, d0, d1, if_neg hbl0, if_neg hbl1]
  rfl

lemma bestOf_tE : bestOf tE = 0 := by
  show (if ([(20 : ℚ)]).getD (argmaxIdx [(20 : ℚ)]) default ≤ 50 then 0
        else argmaxIdx [(20 : ℚ)] + 1) = 0
  rw [show argmaxIdx [(20 : ℚ)] = 0 from rfl]
  rw [if_pos (show ([(20 : ℚ)]).getD 0 default ≤ 50 by norm_num)]

-- ── Liveness claims ────────────────────────────────────────────────────

/-- Claim C5: for every provider environment and every input list of
fewer than 2 frames, whatever their content, sequence liveness returns
passed = false with the not-enough-frames reason (spelled
"Not enough frames" in the source), before any frame is decoded or
analysed — the verdict does not depend on any provider. -/
theorem sequence_too_few_frames (env : Env) (frames : List Bytes)
    (h : frames.length < 2) :
    check_liveness_sequence env frames = ⟨false, "Not enough frames", 0, 0⟩ := by
  unfold check_liveness_sequence
  rw [if_pos h]

/-- Witness for claim C5 on a concrete singleton input. -/
theorem sequence_too_few_frames_witness :
    check_liveness_sequence envA [[0]] = ⟨false, "Not enough frames", 0, 0⟩ :=
  sequence_too_few_frames envA [[0]] (by decide)

/-- Claim C4 (amended): undecodable bytes yield the failing verdict
"Could not decode image" in the single-frame entry point only; the
sequence entry point silently skips undecodable frames, so a sequence of
2 or more undecodable frames fails with "Not enough usable frames"
instead.  Both paths return ordinary verdict values (never fatal). -/
theorem decode_failure_verdicts (env : Env) (b : Bytes) (frames : List Bytes) :
    (env.decode b = none →
      check_liveness_single env b = ⟨false, "Could not decode image", 0, 0⟩) ∧
    ((∀ x ∈ frames, env.decode x = none) → 2 ≤ frames.length →
      check_liveness_sequence env frames =
        ⟨false, "Not enough usable frames", 0, 0⟩) := by
  constructor
  · intro h
    unfold check_liveness_single
    rw [h]
  · intro hall hlen
    unfold check_liveness_sequence
    rw [if_neg (by omega), triage_all_none env frames hall]
    rfl

/-- Claim C4, counterexample: a sequence of two undecodable byte strings
is rejected with reason "Not enough usable frames", not with the decode
reason the claim requires for every entry point. -/
theorem decode_failure_sequence_cx :
    envD.decode [0] = none ∧ envD.decode [1] = none ∧
    check_liveness_sequence envD [[0], [1]] =
      ⟨false, "Not enough usable frames", 0, 0⟩ ∧
    "Not enough usable frames" ≠ "could not decode image" ∧
    "Not enough usable frames" ≠ "Could not decode image" := by
  refine ⟨rfl, rfl, ?_, by decide, by decide⟩
  unfold check_liveness_sequence
  rw [if_neg (by decide), triage_all_none envD [[0], [1]] (fun x _ => rfl)]
  rfl

/-- Witness for the amended claim C4 under the all-undecodable
environment. -/
theorem decode_failure_verdicts_witness :
    check_liveness_single envD [0] = ⟨false, "Could not decode image", 0, 0⟩ ∧
    check_liveness_sequence envD [[0], [1]] =
      ⟨false, "Not enough usable frames", 0, 0⟩ :=
  ⟨(decode_failure_verdicts envD [0] [[0], [1]]).1 rfl,
   (decode_failure_verdicts envD [0] [[0], [1]]).2 (fun x _ => rfl) (by decide)⟩

/-- Claim C3 (amended): when the depth provider is unavailable,
check_depth returns the non-blocking (true, 0, 0) and no flat_depth
signal is appended, so the skipped signal can never contribute to a
rejection; the flat_depth signal is appended exactly when check_depth
reports a positive depth range — which an available provider does not
guarantee (a too-small or constant-depth ROI also reports range 0). -/
theorem depth_skip_and_append (env : Env) (img : CMat) (rect : Rect) :
    (env.estimate_depth img = none →
      check_depth env img rect = (true, 0, 0) ∧ depthSignals env img rect = []) ∧
    (depthSignals env img rect ≠ [] ↔ 0 < (check_depth env img rect).2.1) := by
  constructor
  · intro h
    have hc : check_depth env img rect = (true, 0, 0) := by
      unfold check_depth
      rw [h]
    refine ⟨hc, ?_⟩
    simp only [depthSignals]
    rw [hc]
    rw [if_neg (lt_irrefl (0 : ℚ))]
  · simp only [depthSignals]
    by_cases h : 0 < (check_depth env img rect).2.1
    · rw [if_pos h]
      simp [h]
    · rw [if_neg h]
      simp [h]

/-- Claim C3, counterexample: under envC the depth provider is available
on the analysed frame, yet the spatial signal list of the sequence run
contains no flat_depth entry (the scaled depth ROI has fewer than 100
cells, so check_depth reports range 0 and the signal is dropped). -/
theorem depth_available_not_appended_cx :
    (envC.estimate_depth (bestImg (triage envC [[0], [1]]))).isSome = true ∧
    2 ≤ (triage envC [[0], [1]]).grays.length ∧
    (triage envC [[0], [1]]).rects.filterMap id ≠ [] ∧
    (signalsOf envC (triage envC [[0], [1]])).filter
      (fun sg => sg.name = "flat_depth") = [] := by
  refine ⟨by rw [ht_C, bestImg_tC]; rfl, by rw [ht_C]; decide, by rw [ht_C]; decide, ?_⟩
  rw [ht_C, signalsOf_tC]
  simp only [antispoof]
  rw [if_neg (by decide)]
  rfl

/-- Witness for the amended claim C3: an unavailable provider is skipped
without a signal. -/
theorem depth_skip_and_append_witness :
    check_depth envA img1 rect1 = (true, 0, 0) ∧ depthSignals envA img1 rect1 = [] :=
  (depth_skip_and_append envA img1 rect1).1 rfl

/-- The motion stage either passes or rejects with a reason starting with
the insufficient-motion prefix. -/
lemma motionStage_cases (env : Env) (t : TriageOut) :
    (motionStage env t).passed = true ∨
    ∃ s, (motionStage env t).reason = "Insufficient motion (" ++ s := by
  simp only [motionStage]
  by_cases hm : listMean (pairMotions t.grays) < MOTION_AVG_MIN
  · right
    rw [if_pos hm]
    exact ⟨env.fmt3 (listMean (pairMotions t.grays)) ++ ") — possible photo replay",
      (String.append_assoc _ _ _)⟩
  · left
    rw [if_neg hm]

/-- An insufficient-motion reason is never an anti-spoof reason. -/
lemma insuff_ne_anti (s : String) (S : List Signal) :
    "Insufficient motion (" ++ s ≠ antiSpoofReason S := by
  unfold antiSpoofReason
  exact str_heads_ne _ _ 'I' 'A'
    (head_of_append _ _ _ (by decide)) (head_of_append _ _ _ (by decide)) (by decide)

/-- Claim C2: once at least 2 usable frames survive triage and some frame
has a located face, the verdict is the spatial anti-spoof rejection
(passed = false with the reason enumerating the failing signal names and
diagnostic values) if and only if at least 2 of the available spatial
signals fail; in particular a single failing signal never triggers it. -/
theorem sequence_spatial_fusion_iff (env : Env) (frames : List Bytes)
    (t : TriageOut) (ht : triage env frames = t)
    (h2 : 2 ≤ t.grays.length) (hf : t.rects.filterMap id ≠ []) :
    ((check_liveness_sequence env frames).passed = false ∧
     (check_liveness_sequence env frames).reason = antiSpoofReason (signalsOf env t))
    ↔ 2 ≤ failCount (signalsOf env t) := by
  have hlen : ¬ frames.length < 2 := by
    have h := triage_length_le env frames
    rw [ht] at h
    omega
  have hr : check_liveness_sequence env frames = decideSignals env t := by
    unfold check_liveness_sequence afterTriage
    rw [if_neg hlen, ht, if_neg (by omega), if_neg hf]
  rw [hr]
  unfold decideSignals
  by_cases hc : 2 ≤ failCount (signalsOf env t)
  · rw [if_pos hc]
    constructor
    · intro _
      exact hc
    · intro _
      exact ⟨rfl, rfl⟩
  · rw [if_neg hc]
    constructor
    · intro hcontra
      exfalso
      rcases motionStage_cases env t with hpass | ⟨s, hs⟩
      · rw [hcontra.1] at hpass
        cases hpass
      · have hre := hcontra.2
        rw [hs] at hre
        exact insuff_ne_anti s (signalsOf env t) hre
    · intro h
      exact absurd h hc

/-- Witness for claim C2 under envB, where the texture and flat_colour
signals both fail. -/
theorem sequence_spatial_fusion_iff_witness :
    ((check_liveness_sequence envB [[0], [1]]).passed = false ∧
     (check_liveness_sequence envB [[0], [1]]).reason =
       antiSpoofReason (signalsOf envB tB))
    ↔ 2 ≤ failCount (signalsOf envB tB) :=
  sequence_spatial_fusion_iff envB [[0], [1]] tB ht_B (by decide) (by decide)

/-- Claim C9: when the face crop of the reference frame has either
dimension below 30 pixels, the pixel-based spatial signals are omitted
entirely, at most the depth signal remains, and the spatial fusion stage
cannot reject — the run proceeds to the motion stage whatever the frame
content. -/
theorem small_crop_no_spatial_rejection (env : Env) (frames : List Bytes)
    (t : TriageOut) (ht : triage env frames = t)
    (h2 : 2 ≤ t.grays.length) (hf : t.rects.filterMap id ≠ [])
    (hsmall : (cropG (bestGray t) (rectOf t)).rows < 30 ∨
      (cropG (bestGray t) (rectOf t)).cols < 30) :
    antispoof env (bestImg t) (bestGray t) (rectOf t) = [] ∧
    (signalsOf env t).length ≤ 1 ∧
    check_liveness_sequence env frames = motionStage env t := by
  have h1 : antispoof env (bestImg t) (bestGray t) (rectOf t) = [] := by
    simp only [antispoof]
    rw [if_pos hsmall]
  have h2s : (signalsOf env t).length ≤ 1 := by
    unfold signalsOf
    rw [h1, List.nil_append]
    simp only [depthSignals]
    split
    · simp
    · simp
  refine ⟨h1, h2s, ?_⟩
  have hlen : ¬ frames.length < 2 := by
    have h := triage_length_le env frames
    rw [ht] at h
    omega
  unfold check_liveness_sequence afterTriage
  rw [if_neg hlen, ht, if_neg (by omega), if_neg hf]
  unfold decideSignals
  have hfc : failCount (signalsOf env t) ≤ 1 :=
    le_trans (List.length_filter_le _ _) h2s
  rw [if_neg (by omega)]

/-- Witness for claim C9 under envA, whose 1 by 1 face crop is below the
30-pixel floor. -/
theorem small_crop_no_spatial_rejection_witness :
    antispoof envA (bestImg tA) (bestGray tA) (rectOf tA) = [] ∧
    (signalsOf envA tA).length ≤ 1 ∧
    check_liveness_sequence envA (List.replicate 2 ([0] : Bytes)) = motionStage envA tA :=
  small_crop_no_spatial_rejection envA (List.replicate 2 [0]) tA ht_A
    (by decide) (by decide)
    (by rw [bestGray_tA, rectOf_tA]; decide)

/-- Claim C10: when the sharpest surviving frame has no detected face,
the spatial signals still run on the sharpest frame pixels but with the
face rectangle of the first other frame that has one — the first index j
with a detected rectangle differs from the reference index, and the
signal list is computed from the reference frame buffers with that
rectangle. -/
theorem fallback_rect_from_other_frame (env : Env) (frames : List Bytes)
    (t : TriageOut) (ht : triage env frames = t)
    (hbest : t.rects.getD (bestOf t) none = none)
    (hf : t.rects.filterMap id ≠ []) :
    ∃ j r, j < t.rects.length ∧ j ≠ bestOf t ∧ t.rects.getD j none = some r ∧
      (∀ k, k < j → t.rects.getD k none = none) ∧ rectOf t = r ∧
      signalsOf env t =
        antispoof env (bestImg t) (bestGray t) r ++ depthSignals env (bestImg t) r := by
  obtain ⟨j, hjl, hj, hfirst⟩ := filterMap_first t.rects hf
  have hr : rectOf t = (t.rects.filterMap id).headD default := by
    unfold rectOf
    rw [hbest]
  refine ⟨j, (t.rects.filterMap id).headD default, hjl, ?_, hj, hfirst, hr, ?_⟩
  · intro e
    rw [e, hbest] at hj
    cases hj
  · unfold signalsOf
    rw [hr]

/-- Witness for claim C10 under envE: the sharpest frame (index 0) has no
face, the rectangle comes from frame 1. -/
theorem fallback_rect_from_other_frame_witness :
    ∃ j r, j < tE.rects.length ∧ j ≠ bestOf tE ∧ tE.rects.getD j none = some r ∧
      (∀ k, k < j → tE.rects.getD k none = none) ∧ rectOf tE = r ∧
      signalsOf envE tE =
        antispoof envE (bestImg tE) (bestGray tE) r ++ depthSignals envE (bestImg tE) r :=
  fallback_rect_from_other_frame envE [[0], [1]] tE ht_E
    (by rw [bestOf_tE]; rfl) (by decide)

/-- Claim C7: (first conjunct) a verdict whose reason starts with the
insufficient-motion prefix (the only reason referencing possible photo
replay) can only arise when fewer than 2 spatial signals failed, because
the motion stage runs strictly after the spatial fusion has passed;
(second conjunct) a sequence of n ≥ 2 identical, decodable, sharp frames
whose shared frame has a located face and fewer than 2 failing spatial
signals is rejected at the motion stage with average motion 0 (below the
0.8 floor) and the photo-replay reason. -/
theorem motion_after_spatial (env : Env) (frames : List Bytes) (fb : Bytes)
    (img : CMat) (rect : Rect) (n : ℕ) :
    ((∃ s, (check_liveness_sequence env frames).reason = "Insufficient motion (" ++ s) →
      failCount (signalsOf env (triage env frames)) < 2) ∧
    (2 ≤ n → env.decode fb = some img →
      ¬ env.lap_var (env.to_gray img) < BLUR_MIN_SEQ →
      find_face env (env.to_gray img) = some rect →
      failCount (signalsOf env (triage env (List.replicate n fb))) < 2 →
      check_liveness_sequence env (List.replicate n fb) =
        ⟨false, "Insufficient motion (" ++ env.fmt3 0 ++ ") — possible photo replay",
         env.lap_var (env.to_gray img), 0⟩) := by
  constructor
  · intro hex
    obtain ⟨s, hs⟩ := hex
    by_contra hge
    push_neg at hge
    unfold check_liveness_sequence at hs
    by_cases h1 : frames.length < 2
    · rw [if_pos h1] at hs
      exact str_heads_ne _ _ 'N' 'I' (by decide)
        (head_of_append _ _ _ (by decide)) (by decide) hs
    · rw [if_neg h1] at hs
      unfold afterTriage at hs
      by_cases hg : (triage env frames).grays.length < 2
      · rw [if_pos hg] at hs
        exact str_heads_ne _ _ 'N' 'I' (by decide)
          (head_of_append _ _ _ (by decide)) (by decide) hs
      · rw [if_neg hg] at hs
        by_cases hfm : (triage env frames).rects.filterMap id = []
        · rw [if_pos hfm] at hs
          exact str_heads_ne _ _ 'N' 'I' (by decide)
            (head_of_append _ _ _ (by decide)) (by decide) hs
        · rw [if_neg hfm] at hs
          unfold decideSignals at hs
          rw [if_pos hge] at hs
          exact insuff_ne_anti s (signalsOf env (triage env frames)) hs.symm
  · intro hn hd hb hfr hc
    have htr := triage_replicate env fb img hd hb n
    rw [hfr] at htr
    rw [htr] at hc
    have hlen : ¬ (List.replicate n fb).length < 2 := by
      simp only [List.length_replicate]
      omega
    unfold check_liveness_sequence
    rw [if_neg hlen, htr]
    unfold afterTriage
    rw [if_neg (show ¬ (List.replicate n (env.to_gray img)).length < 2 by
      simp only [List.length_replicate]; omega)]
    have hface : ¬ (List.replicate n (some rect)).filterMap id = [] := by
      rw [filterMap_id_replicate_some]
      intro h
      have hlen2 := congrArg List.length h
      simp only [List.length_replicate, List.length_nil] at hlen2
      omega
    rw [if_neg hface]
    unfold decideSignals
    rw [if_neg (by omega)]
    have hmot : listMean (pairMotions (List.replicate n (env.to_gray img))) = 0 := by
      obtain ⟨m, rfl⟩ : ∃ m, n = m + 1 := ⟨n - 1, by omega⟩
      rw [pairMotions_replicate, absdiffMean_self, listMean_replicate_zero]
    simp only [motionStage]
    rw [hmot]
    rw [if_pos (by norm_num [MOTION_AVG_MIN])]
    rw [listMean_replicate _ n (by omega)]

/-- Witness for claim C7 under envA with 2 identical frames: the first
conjunct applied to the concrete photo-replay rejection, the second
conjunct applied to the replicated frame. -/
theorem motion_after_spatial_witness :
    failCount (signalsOf envA (triage envA (List.replicate 2 ([0] : Bytes)))) < 2 ∧
    check_liveness_sequence envA (List.replicate 2 ([0] : Bytes)) =
      ⟨false, "Insufficient motion (" ++ envA.fmt3 0 ++ ") — possible photo replay",
       envA.lap_var (envA.to_gray img1), 0⟩ := by
  have hc : failCount (signalsOf envA (triage envA (List.replicate 2 ([0] : Bytes)))) < 2 := by
    rw [ht_A, signalsOf_tA]
    decide
  have h2 := (motion_after_spatial envA (List.replicate 2 [0]) [0] img1 rect1 2).2
    (by decide) rfl (not_blur_lt 100 (by norm_num [BLUR_MIN_SEQ])) rfl hc
  refine ⟨?_, h2⟩
  exact (motion_after_spatial envA (List.replicate 2 [0]) [0] img1 rect1 2).1
    ⟨"m) — possible photo replay", by rw [h2]; rfl⟩
